import Mathlib

/-!
Verification of the `fullsend` Twilio client library.

Shallow embedding of `src/auth.rs`, `src/client.rs` and `src/message.rs`.
Rust `&str`/`String` fields become `String`, `Option<T>` becomes `Option T`,
`Vec<T>` becomes `List T`, `HashMap<&str,&str>` becomes an association list
`List (String × String)` (the map is never read by the request assembler, so
only its presence matters), and `Result<T, E>` becomes `Except E T`.
The HTTP transport is external; the response classification in
`Client::send_message` is embedded as a function of the abstract transport
outcome (either a transport error or a numeric HTTP status code).
-/

/-- Embeds `AuthMethod` from src/auth.rs. -/
inductive AuthMethod where
  | AccountAuthToken (token : String)
  | APIKey (key secret : String)
deriving DecidableEq, Repr

/-- Embeds the `Client` struct from src/client.rs. -/
structure Client where
  account_sid : String
  auth : AuthMethod
deriving DecidableEq, Repr

/-- Embeds `ClientBuilderError` from src/client.rs. -/
inductive ClientBuilderError where
  | NoAccountSidSet
  | NoAuthMethodSet
deriving DecidableEq, Repr

/-- Embeds the `ClientBuilder` struct from src/client.rs. -/
structure ClientBuilder where
  account_sid : Option String := none
  auth : Option AuthMethod := none
deriving DecidableEq, Repr

/-- Embeds `ClientBuilder::build` (src/client.rs lines 180-190): fail with
`NoAccountSidSet` when `account_sid` is unset, then with `NoAuthMethodSet`
when `auth` is unset, otherwise return the `Client` holding the stored
values. -/
def ClientBuilder.build (self : ClientBuilder) : Except ClientBuilderError Client :=
  match self.account_sid with
  | none => .error .NoAccountSidSet
  | some account_sid =>
    match self.auth with
    | none => .error .NoAuthMethodSet
    | some auth => .ok { account_sid := account_sid, auth := auth }

/-- Embeds `ClientBuilder::account_sid` (src/client.rs lines 194-197).
Named `set_account_sid` because the Lean structure field already uses the
Rust method's name. -/
def ClientBuilder.set_account_sid (self : ClientBuilder) (account_sid : String) :
    ClientBuilder :=
  { self with account_sid := some account_sid }

/-- Embeds `ClientBuilder::api_key` (src/client.rs lines 199-202). -/
def ClientBuilder.set_api_key (self : ClientBuilder) (key secret : String) :
    ClientBuilder :=
  { self with auth := some (.APIKey key secret) }

/-- Embeds `ClientBuilder::auth_token` (src/client.rs lines 204-207). -/
def ClientBuilder.set_auth_token (self : ClientBuilder) (token : String) :
    ClientBuilder :=
  { self with auth := some (.AccountAuthToken token) }

/-- Embeds the `Message` struct from src/message.rs (field order as in the
source). -/
structure Message where
  body : Option String
  content_sid : Option String
  content_variables : Option (List (String × String))
  «from» : Option String
  media_urls : Option (List String)
  messaging_service_sid : Option String
  «to» : String
deriving DecidableEq, Repr

/-- Embeds `MessageBuilderError` from src/message.rs. -/
inductive MessageBuilderError where
  | NoMessageSet
  | NoSenderSet
  | NoToSet
deriving DecidableEq, Repr

/-- Embeds the `MessageBuilder` struct from src/message.rs. -/
structure MessageBuilder where
  body : Option String := none
  content_sid : Option String := none
  content_variables : Option (List (String × String)) := none
  «from» : Option String := none
  media_urls : Option (List String) := none
  messaging_service_sid : Option String := none
  «to» : Option String := none
deriving DecidableEq, Repr

/-- Embeds `MessageBuilder::build` (src/message.rs lines 91-116): destination unset
fails with `NoToSet`; then `from` and `messaging_service_sid` both unset
fails with `NoSenderSet`; then `body`, `media_urls` and `content_sid` all
unset fails with `NoMessageSet`; otherwise the `Message` carries the stored
fields. -/
def MessageBuilder.build (self : MessageBuilder) : Except MessageBuilderError Message :=
  match self.«to» with
  | none => .error .NoToSet
  | some «to» =>
    if self.«from».isNone && self.messaging_service_sid.isNone then
      .error .NoSenderSet
    else if self.body.isNone && self.media_urls.isNone && self.content_sid.isNone then
      .error .NoMessageSet
    else
      .ok { body := self.body
            content_sid := self.content_sid
            content_variables := self.content_variables
            «from» := self.«from»
            media_urls := self.media_urls
            messaging_service_sid := self.messaging_service_sid
            «to» := «to» }

/-- Embeds `MessageBuilder::body` (src/message.rs lines 119-122). Setters are
named `set_*` because the Lean structure fields already use the Rust method
names. -/
def MessageBuilder.set_body (self : MessageBuilder) (body : String) : MessageBuilder :=
  { self with body := some body }

/-- Embeds `MessageBuilder::content_sid` (src/message.rs lines 125-128). -/
def MessageBuilder.set_content_sid (self : MessageBuilder) (content_sid : String) :
    MessageBuilder :=
  { self with content_sid := some content_sid }

/-- Embeds `MessageBuilder::content_variables` (src/message.rs lines 131-134). -/
def MessageBuilder.set_content_variables (self : MessageBuilder)
    (content_variables : List (String × String)) : MessageBuilder :=
  { self with content_variables := some content_variables }

/-- Embeds `MessageBuilder::from` (src/message.rs lines 138-141). -/
def MessageBuilder.set_from (self : MessageBuilder) (f : String) : MessageBuilder :=
  { self with «from» := some f }

/-- Embeds `MessageBuilder::media_url` (src/message.rs lines 149-152): stores
the one-element list, replacing any previous collection. -/
def MessageBuilder.set_media_url (self : MessageBuilder) (media_url : String) :
    MessageBuilder :=
  { self with media_urls := some [media_url] }

/-- Embeds `MessageBuilder::media_urls` (src/message.rs lines 155-158): stores
the given list verbatim, replacing any previous collection. -/
def MessageBuilder.set_media_urls (self : MessageBuilder) (media_urls : List String) :
    MessageBuilder :=
  { self with media_urls := some media_urls }

/-- Embeds `MessageBuilder::messaging_service_sid` (src/message.rs lines
162-165). -/
def MessageBuilder.set_messaging_service_sid (self : MessageBuilder) (sid : String) :
    MessageBuilder :=
  { self with messaging_service_sid := some sid }

/-- Embeds the destination setter of `MessageBuilder` (src/message.rs lines 169-172). -/
def MessageBuilder.set_to (self : MessageBuilder) («to» : String) : MessageBuilder :=
  { self with «to» := some «to» }

/-- Embeds the form-parameter assembly of `Client::send_message`
(src/client.rs lines 92-110): the pushes onto `params`, in source order.
The capacity precomputation (lines 71-90) only sizes the vector and does not
affect the resulting sequence. -/
def sendMessageParams (message : Message) : List (String × String) :=
  let params : List (String × String) := [("To", message.«to»)]
  let params := match message.«from» with
    | some f => params ++ [("From", f)]
    | none => params
  let params := match message.messaging_service_sid with
    | some messaging_service_sid => params ++ [("MessagingServiceSid", messaging_service_sid)]
    | none => params
  let params := match message.body with
    | some body => params ++ [("Body", body)]
    | none => params
  let params := match message.content_sid with
    | some content_sid => params ++ [("ContentSid", content_sid)]
    | none => params
  let params := match message.media_urls with
    | some media_urls => params ++ media_urls.map (fun media_url => ("MediaUrl", media_url))
    | none => params
  params

/-- Embeds the basic-auth resolution of `Client::send_message`
(src/client.rs lines 112-123): the `(auth_user, auth_pass)` pair. -/
def Client.basicAuth (self : Client) : String × String :=
  match self.auth with
  | .AccountAuthToken token => (self.account_sid, token)
  | .APIKey key secret => (key, secret)

/-- Embeds `SendError` from src/client.rs, abstracting over the transport
error type (`reqwest::Error` in the source). -/
inductive SendError (ε : Type) where
  | Network (cause : ε)
  | Twilio (code : Nat)
deriving DecidableEq, Repr

/-- Embeds `reqwest::StatusCode::is_success` (the `http` crate): a status is
a success exactly when it lies in 200..=299. -/
def statusIsSuccess (code : Nat) : Bool :=
  200 ≤ code && code < 300

/-- Embeds the outcome classification of `Client::send_message`
(src/client.rs lines 135-143): a transport failure becomes
`SendError.Network`, a completed exchange with a 2xx status becomes success
with the body discarded, and any other completed exchange becomes
`SendError.Twilio` carrying the numeric status. -/
def classifySendResult {ε : Type} (twilio_result : Except ε Nat) :
    Except (SendError ε) Unit :=
  match twilio_result with
  | .error error => .error (.Network error)
  | .ok status =>
    if statusIsSuccess status then .ok () else .error (.Twilio status)

/-- Spec-side success predicate for claim C1, following the claim's words:
build succeeds iff the destination is set AND at least one of `from` and
`messaging_service_sid` is set AND at least one of `body`, `content_sid`,
or a NON-EMPTY `media_urls` list is set. -/
def specBuildSucceeds (s : MessageBuilder) : Bool :=
  s.«to».isSome && (s.«from».isSome || s.messaging_service_sid.isSome) &&
    (s.body.isSome || s.content_sid.isSome ||
      (match s.media_urls with
       | some media_urls => !media_urls.isEmpty
       | none => false))

/-- Claim C1 fails as stated: a builder whose `media_urls` field holds the
EMPTY list (with `to` and `from` set, no body, no content sid) builds
successfully, while the claim's success condition demands a non-empty media
list and so predicts failure. -/
theorem c1_counterexample :
    ¬ (∀ s : MessageBuilder,
        (∃ m, s.build = Except.ok m) ↔ specBuildSucceeds s = true) := by
  intro h
  have h0 := (h { «to» := some "+15551234567", «from» := some "+15559876543",
                  media_urls := some [] }).1 ⟨_, rfl⟩
  simp [specBuildSucceeds] at h0

/-- Claim C1 (amended): for every MessageBuilder state, build() succeeds iff
`to` is set AND at least one of `from`/`messaging_service_sid` is set AND at
least one of `body`, `content_sid`, or `media_urls` is set — the media
field's mere presence suffices, an empty list included; on failure it
returns the error of the first failing check in the fixed order to
(NoToSet), then sender (NoSenderSet), then content (NoMessageSet). -/
theorem c1_build_characterization (s : MessageBuilder) :
    ((∃ m, s.build = Except.ok m) ↔
      (s.«to».isSome ∧ (s.«from».isSome ∨ s.messaging_service_sid.isSome) ∧
        (s.body.isSome ∨ s.content_sid.isSome ∨ s.media_urls.isSome))) ∧
    (s.«to» = none → s.build = Except.error MessageBuilderError.NoToSet) ∧
    (s.«to».isSome → s.«from» = none → s.messaging_service_sid = none →
      s.build = Except.error MessageBuilderError.NoSenderSet) ∧
    (s.«to».isSome → (s.«from».isSome ∨ s.messaging_service_sid.isSome) →
      s.body = none → s.content_sid = none → s.media_urls = none →
      s.build = Except.error MessageBuilderError.NoMessageSet) := by
  obtain ⟨b, cs, cv, f, mu, ms, t⟩ := s
  cases t <;> cases f <;> cases ms <;> cases b <;> cases cs <;> cases mu <;>
    simp [MessageBuilder.build]

/-- Claim C1 witness: the empty builder fails with NoToSet, and a builder
with destination, sender and body set builds successfully. -/
theorem c1_witness :
    MessageBuilder.build {} = Except.error MessageBuilderError.NoToSet ∧
    (∃ m, MessageBuilder.build
      { «to» := some "+15551234567", «from» := some "+15559876543",
        body := some "hi" } = Except.ok m) :=
  ⟨(c1_build_characterization {}).2.1 rfl,
   (c1_build_characterization _).1.2 ⟨rfl, Or.inl rfl, Or.inl rfl⟩⟩

/-- Claim C2: for every ClientBuilder state, build() fails with
NoAccountSidSet when account_sid is unset (whatever the auth field holds),
fails with NoAuthMethodSet when account_sid is set but auth is unset,
returns a Client carrying exactly the stored values when both are set, and
succeeds iff both fields are set. -/
theorem c2_build_characterization (s : ClientBuilder) :
    (s.account_sid = none →
      s.build = Except.error ClientBuilderError.NoAccountSidSet) ∧
    (∀ sid, s.account_sid = some sid → s.auth = none →
      s.build = Except.error ClientBuilderError.NoAuthMethodSet) ∧
    (∀ sid a, s.account_sid = some sid → s.auth = some a →
      s.build = Except.ok { account_sid := sid, auth := a }) ∧
    ((∃ c, s.build = Except.ok c) ↔ (s.account_sid.isSome ∧ s.auth.isSome)) := by
  obtain ⟨sid, a⟩ := s
  cases sid <;> cases a <;> simp [ClientBuilder.build]

/-- Claim C2 witness: the empty client builder fails with NoAccountSidSet,
and a fully set builder returns the stored account sid and auth. -/
theorem c2_witness :
    ClientBuilder.build {} = Except.error ClientBuilderError.NoAccountSidSet ∧
    ClientBuilder.build
        { account_sid := some "AC1",
          auth := some (AuthMethod.AccountAuthToken "tok") } =
      Except.ok { account_sid := "AC1", auth := AuthMethod.AccountAuthToken "tok" } :=
  ⟨(c2_build_characterization {}).1 rfl,
   (c2_build_characterization _).2.2.1 "AC1" (AuthMethod.AccountAuthToken "tok") rfl rfl⟩

/-- Spec-side ordered form-parameter list for claim C3, following the spec's
words: `To` always; then `From`, `MessagingServiceSid`, `Body`, `ContentSid`
each when set; then one `MediaUrl` entry per element of media_urls in
original order; and nothing else. -/
def sendMessageParamsSpec (m : Message) : List (String × String) :=
  [("To", m.«to»)]
    ++ (m.«from».elim [] fun f => [("From", f)])
    ++ (m.messaging_service_sid.elim [] fun x => [("MessagingServiceSid", x)])
    ++ (m.body.elim [] fun b => [("Body", b)])
    ++ (m.content_sid.elim [] fun c => [("ContentSid", c)])
    ++ (m.media_urls.elim [] fun urls => urls.map fun u => ("MediaUrl", u))

/-- Claim C3: for every Message, the form-parameter list assembled by
send_message is exactly the spec's ordered sequence: To, then From if set,
then MessagingServiceSid if set, then Body if set, then ContentSid if set,
then one MediaUrl pair per media url in original order, and nothing else. -/
theorem c3_params_exact (m : Message) :
    sendMessageParams m = sendMessageParamsSpec m := by
  obtain ⟨b, cs, cv, f, mu, ms, t⟩ := m
  cases b <;> cases cs <;> cases f <;> cases mu <;> cases ms <;> rfl

/-- Claim C4: send_message resolves the basic-auth pair as
(account_sid, token) for AccountAuthToken and (key, secret) for APIKey, the
latter independent of account_sid. -/
theorem c4_basic_auth (c : Client) :
    (∀ token, c.auth = AuthMethod.AccountAuthToken token →
      c.basicAuth = (c.account_sid, token)) ∧
    (∀ key secret, c.auth = AuthMethod.APIKey key secret →
      c.basicAuth = (key, secret)) ∧
    (∀ sid1 sid2 key secret,
      Client.basicAuth { account_sid := sid1, auth := AuthMethod.APIKey key secret } =
        Client.basicAuth { account_sid := sid2, auth := AuthMethod.APIKey key secret }) := by
  refine ⟨?_, ?_, ?_⟩
  · intro token h
    simp [Client.basicAuth, h]
  · intro key secret h
    simp [Client.basicAuth, h]
  · intro sid1 sid2 key secret
    rfl

/-- Claim C4 witness: with auth=APIKey("KEY","SECRET") the pair is
("KEY","SECRET"); with auth=AccountAuthToken("tok") and account sid "AC1"
the pair is ("AC1","tok"). -/
theorem c4_witness :
    Client.basicAuth { account_sid := "AC1", auth := AuthMethod.APIKey "KEY" "SECRET" } =
        ("KEY", "SECRET") ∧
    Client.basicAuth { account_sid := "AC1", auth := AuthMethod.AccountAuthToken "tok" } =
        ("AC1", "tok") :=
  ⟨(c4_basic_auth _).2.1 "KEY" "SECRET" rfl,
   (c4_basic_auth _).1 "tok" rfl⟩

/-- Claim C5: send_message classifies the HTTP exchange exhaustively and
exclusively — a transport failure yields the Network error wrapping the
cause, a completed exchange with a 2xx status yields success with the body
discarded, and a completed exchange with any other status yields the Twilio
error carrying that numeric status verbatim. -/
theorem c5_classify (ε : Type) (r : Except ε Nat) :
    (∀ e, r = Except.error e →
      classifySendResult r = Except.error (SendError.Network e)) ∧
    (∀ code, r = Except.ok code →
      (200 ≤ code ∧ code < 300 → classifySendResult r = Except.ok ()) ∧
      (¬(200 ≤ code ∧ code < 300) →
        classifySendResult r = Except.error (SendError.Twilio code))) := by
  refine ⟨?_, ?_⟩
  · intro e he
    subst he
    rfl
  · intro code hc
    subst hc
    refine ⟨?_, ?_⟩
    · intro h
      have hs : statusIsSuccess code = true := by
        simp [statusIsSuccess]
        omega
      simp [classifySendResult, hs]
    · intro h
      have hs : statusIsSuccess code = false := by
        simp [statusIsSuccess]
        omega
      simp [classifySendResult, hs]

/-- Claim C5 witness: a transport failure maps to Network, status 201 maps
to success, and status 401 maps to Twilio 401. -/
theorem c5_witness :
    classifySendResult (Except.error "connection refused" : Except String Nat) =
        Except.error (SendError.Network "connection refused") ∧
    classifySendResult (Except.ok 201 : Except String Nat) = Except.ok () ∧
    classifySendResult (Except.ok 401 : Except String Nat) =
        Except.error (SendError.Twilio 401) :=
  ⟨(c5_classify String _).1 "connection refused" rfl,
   ((c5_classify String _).2 201 rfl).1 (by omega),
   ((c5_classify String _).2 401 rfl).2 (by omega)⟩

/-- Claim C6: media_url and media_urls each fully replace the builder's
media collection — from any prior state media_url x leaves exactly [x] and
media_urls xs leaves exactly xs; in particular media_url x then
media_urls [y, z] leaves [y, z], and media_url x then media_url w leaves
[w]. -/
theorem c6_media_replace (s : MessageBuilder) (x w y z : String) (xs : List String) :
    (s.set_media_url x).media_urls = some [x] ∧
    (s.set_media_urls xs).media_urls = some xs ∧
    ((s.set_media_url x).set_media_urls [y, z]).media_urls = some [y, z] ∧
    ((s.set_media_url x).set_media_url w).media_urls = some [w] :=
  ⟨rfl, rfl, rfl, rfl⟩

/-- Claim C7: the assembled form-parameter list is independent of
content_variables — two Messages agreeing on every other field produce the
identical parameter list. -/
theorem c7_params_ignore_content_variables (m1 m2 : Message) :
    m1.body = m2.body → m1.content_sid = m2.content_sid →
    m1.«from» = m2.«from» → m1.media_urls = m2.media_urls →
    m1.messaging_service_sid = m2.messaging_service_sid → m1.«to» = m2.«to» →
    sendMessageParams m1 = sendMessageParams m2 := by
  intro h1 h2 h3 h4 h5 h6
  unfold sendMessageParams
  rw [h1, h2, h3, h4, h5, h6]

/-- Claim C7 witness: two concrete Messages differing only in
content_variables (absent versus a one-entry map) produce the same
parameter list. -/
theorem c7_witness :
    sendMessageParams
        { body := some "hi", content_sid := none, content_variables := none,
          «from» := some "+15559876543", media_urls := none,
          messaging_service_sid := none, «to» := "+15551234567" } =
      sendMessageParams
        { body := some "hi", content_sid := none,
          content_variables := some [("name", "Ada")],
          «from» := some "+15559876543", media_urls := none,
          messaging_service_sid := none, «to» := "+15551234567" } :=
  c7_params_ignore_content_variables _ _ rfl rfl rfl rfl rfl rfl

/-- Claim C8: build is a deterministic read of the accumulator fields for
both builders — two accumulators with equal fields build to value-equal
results, so building twice with no intervening mutation gives value-equal
results. -/
theorem c8_build_deterministic (s t : ClientBuilder) (u v : MessageBuilder) :
    (s.account_sid = t.account_sid → s.auth = t.auth → s.build = t.build) ∧
    (u.body = v.body → u.content_sid = v.content_sid →
      u.content_variables = v.content_variables → u.«from» = v.«from» →
      u.media_urls = v.media_urls →
      u.messaging_service_sid = v.messaging_service_sid → u.«to» = v.«to» →
      u.build = v.build) := by
  refine ⟨?_, ?_⟩
  · intro h1 h2
    unfold ClientBuilder.build
    rw [h1, h2]
  · intro h1 h2 h3 h4 h5 h6 h7
    unfold MessageBuilder.build
    rw [h1, h2, h3, h4, h5, h6, h7]

/-- Claim C8 witness: building the same concrete client accumulator twice
and the same concrete message accumulator twice yields equal results. -/
theorem c8_witness :
    ClientBuilder.build
        { account_sid := some "AC1",
          auth := some (AuthMethod.AccountAuthToken "tok") } =
      ClientBuilder.build
        { account_sid := some "AC1",
          auth := some (AuthMethod.AccountAuthToken "tok") } ∧
    MessageBuilder.build
        { «to» := some "+15551234567", «from» := some "+15559876543",
          body := some "hi" } =
      MessageBuilder.build
        { «to» := some "+15551234567", «from» := some "+15559876543",
          body := some "hi" } :=
  ⟨(c8_build_deterministic _ _ {} {}).1 rfl rfl,
   (c8_build_deterministic {} {} _ _).2 rfl rfl rfl rfl rfl rfl rfl⟩

/-- Claim C9: every builder setter writes only its own field, overwriting
any prior value with the given argument; ClientBuilder's auth_token and
api_key both write the single auth field, so the last call determines the
active auth variant. -/
theorem c9_setters_frame (s : MessageBuilder) (c : ClientBuilder)
    (v k sec : String) (vs : List String) (kv : List (String × String)) :
    s.set_to v = { s with «to» := some v } ∧
    s.set_from v = { s with «from» := some v } ∧
    s.set_messaging_service_sid v = { s with messaging_service_sid := some v } ∧
    s.set_body v = { s with body := some v } ∧
    s.set_content_sid v = { s with content_sid := some v } ∧
    s.set_content_variables kv = { s with content_variables := some kv } ∧
    s.set_media_url v = { s with media_urls := some [v] } ∧
    s.set_media_urls vs = { s with media_urls := some vs } ∧
    c.set_account_sid v = { c with account_sid := some v } ∧
    c.set_auth_token v = { c with auth := some (AuthMethod.AccountAuthToken v) } ∧
    c.set_api_key k sec = { c with auth := some (AuthMethod.APIKey k sec) } ∧
    (c.set_api_key k sec).set_auth_token v =
      { c with auth := some (AuthMethod.AccountAuthToken v) } ∧
    (c.set_auth_token v).set_api_key k sec =
      { c with auth := some (AuthMethod.APIKey k sec) } :=
  ⟨rfl, rfl, rfl, rfl, rfl, rfl, rfl, rfl, rfl, rfl, rfl, rfl, rfl⟩

/-- Claim C10: a builder with destination and sender set, no body, no
content sid, and media_urls holding the EMPTY list builds successfully (the
content check tests only presence of the media field), and the resulting
Message's form-parameter list contains no MediaUrl entry. -/
theorem c10_empty_media_list (s : MessageBuilder) (t : String) :
    s.«to» = some t → (s.«from».isSome ∨ s.messaging_service_sid.isSome) →
    s.body = none → s.content_sid = none → s.media_urls = some [] →
    ∃ m, s.build = Except.ok m ∧
      ∀ p ∈ sendMessageParams m, p.1 ≠ "MediaUrl" := by
  intro hto hsender hbody hcsid hmedia
  obtain ⟨b, cs, cv, f, mu, ms, t'⟩ := s
  simp only at hto hbody hcsid hmedia hsender
  subst hto hbody hcsid hmedia
  cases f with
  | none =>
    cases ms with
    | none => simp at hsender
    | some msv => exact ⟨_, rfl, by simp [sendMessageParams]⟩
  | some fv =>
    cases ms <;> exact ⟨_, rfl, by simp [sendMessageParams]⟩

/-- Claim C10 witness: the concrete builder with to and from set and an
empty media list builds successfully into a Message whose parameters carry
no MediaUrl entry. -/
theorem c10_witness :
    ∃ m, MessageBuilder.build
        { «to» := some "+15551234567", «from» := some "+15559876543",
          media_urls := some [] } = Except.ok m ∧
      ∀ p ∈ sendMessageParams m, p.1 ≠ "MediaUrl" :=
  c10_empty_media_list _ "+15551234567" rfl (Or.inl rfl) rfl rfl rfl
